import Mathlib

/-!
Verification model of the Stripe terminal relay server (src/server.js).

Each Express route handler is embedded as a pure function from the parsed
JSON request body and the outcome of the vendor (Stripe SDK) call(s) it
issues to an ordered trace of events: vendor calls issued, log lines
written, and the single HTTP response sent.  The vendor is an oracle: the
result of each call the handler may issue is a parameter of the handler
(`Except String r` — `error m` models the SDK throwing an exception whose
`message` is `m`).  JavaScript field access and truthiness (`req.body.x`,
`x || default`, `!x`) are modelled by the `JSValue` type below.
-/

/-- Model of the JavaScript values that flow through the relay: request-body
fields may be absent (`undef`), `null`, booleans, numbers, strings, arrays of
strings (e.g. `payment_method_types`), or opaque objects (e.g.
`payment_method_options`, `address`), modelled as string association lists. -/
inductive JSValue where
  | undef
  | nullv
  | boolV (b : Bool)
  | numV (n : Int)
  | strV (s : String)
  | arrV (elems : List String)
  | objV (fields : List (String × String))
deriving DecidableEq

/-- JavaScript truthiness: `undefined`, `null`, `false`, `0` and `""` are
falsy; every array and object (even empty) is truthy. -/
def JSValue.truthy : JSValue → Bool
  | .undef => false
  | .nullv => false
  | .boolV b => b
  | .numV n => n != 0
  | .strV s => s != ""
  | .arrV _ => true
  | .objV _ => true

/-- JavaScript string conversion, as used by template literals. -/
def JSValue.toStr : JSValue → String
  | .undef => "undefined"
  | .nullv => "null"
  | .boolV true => "true"
  | .boolV false => "false"
  | .numV n => toString n
  | .strV s => s
  | .arrV elems => String.intercalate "," elems
  | .objV _ => "[object Object]"

/-- The JavaScript `a || b` defaulting idiom: the left operand if truthy,
otherwise the right. -/
def jsOr (v d : JSValue) : JSValue :=
  if v.truthy then v else d

/-- Vendor terminal-reader object: `id` plus the rest of the payload, which
the relay never inspects and only forwards. -/
structure ReaderObj where
  id : String
  payload : String
deriving DecidableEq

/-- Vendor connection-token object (`token.secret`). -/
structure TokenObj where
  secret : String
deriving DecidableEq

/-- Vendor payment-intent / setup-intent object, as far as the relay reads
it: `id` and `client_secret`. -/
structure IntentObj where
  id : String
  client_secret : String
deriving DecidableEq

/-- Vendor customer object, as far as the relay reads it. -/
structure CustomerObj where
  id : String
  email : String
deriving DecidableEq

/-- Vendor payment-method object: opaque payload forwarded to the caller. -/
structure PaymentMethodObj where
  id : String
  payload : String
deriving DecidableEq

/-- Vendor terminal-location object: opaque payload forwarded to the caller. -/
structure LocationObj where
  id : String
  payload : String
deriving DecidableEq

/-- Parameters of `stripe.paymentIntents.create`, as assembled by the
`create_payment_intent` handler (server.js lines 83-91). -/
structure PaymentIntentCreateParams where
  payment_method_types : JSValue
  capture_method : JSValue
  amount : JSValue
  currency : JSValue
  description : JSValue
  payment_method_options : JSValue
  receipt_email : JSValue
deriving DecidableEq

/-- One outbound vendor (Stripe SDK) call, with the arguments the relay
passes to it. -/
inductive VendorCall where
  | readersCreate (registration_code label loc : JSValue)
  | connectionTokensCreate
  | paymentIntentsCreate (p : PaymentIntentCreateParams)
  | paymentIntentsCapture (payment_intent_id amount_to_capture : JSValue)
  | paymentIntentsCancel (payment_intent_id : JSValue)
  | setupIntentsCreate (payment_method_types customer description on_behalf_of : JSValue)
  | customersList (email : String) (limit : Nat)
  | customersCreate (email : String)
  | paymentMethodsAttach (payment_method_id : JSValue) (customer : String) (expand : List String)
  | paymentIntentsUpdate (payment_intent_id receipt_email : JSValue)
  | terminalLocationsList (limit : Nat)
  | terminalLocationsCreate (display_name address : JSValue)
deriving DecidableEq

/-- The JSON (or plain-text) shapes of the HTTP response bodies the relay
produces, one constructor per shape occurring in server.js. -/
inductive RespBody where
  | text (s : String)
  | staticPage
  | dataMsg (s : String)
  | reader (r : ReaderObj)
  | secretOnly (secret : String)
  | intentSecret (intent : String) (secret : String)
  | paymentMethod (pm : PaymentMethodObj)
  | locations (ls : List LocationObj)
  | location (l : LocationObj)
deriving DecidableEq

/-- One observable step of a handler, in the order it happens: a vendor call
is issued, a log line is printed, or the HTTP response is sent. -/
inductive Event where
  | call (c : VendorCall)
  | log (line : String)
  | respond (status : Nat) (body : RespBody)
deriving DecidableEq

/-- `logInfo` (server.js lines 26-29) prints the message framed by blank
lines (`console.log("\n" + message + "\n")`) and returns the message; this
function gives the printed log line, and the returned value used for
response bodies is the bare message. -/
def logInfo (message : String) : String :=
  "\n" ++ message ++ "\n"

/-- JavaScript `key.startsWith(p)`: `p` is a character-wise prefix of `key`. -/
def jsStartsWith (key p : String) : Bool :=
  p.data.isPrefixOf key.data

/-- `validateApiKey` (server.js lines 31-40), as a function of the secret
key it inspects: an error message for an empty key, a `pk_`-prefixed key or
an `sk_live`-prefixed key, and `null` (`none`) otherwise.  The JavaScript
guard `!stripe || !key` reduces to `key = ""` since the constructed client
object is always truthy and an empty string is the falsy string. -/
def validateApiKey (key : String) : Option String :=
  if key = "" then
    some "Error: you provided an empty secret key. Please provide your test mode secret key."
  else if jsStartsWith key "pk_" then
    some "Error: you used a publishable key. Use your test secret key."
  else if jsStartsWith key "sk_live" then
    some "Error: you used a live mode secret key. Use your test mode secret key."
  else
    none

/-- Request body of `POST /register_reader`; absent fields are `undef`. -/
structure RegisterReaderBody where
  registration_code : JSValue := .undef
  label : JSValue := .undef
  loc : JSValue := .undef
deriving DecidableEq

/-- Request body of `POST /create_payment_intent`. -/
structure PaymentIntentBody where
  payment_method_types : JSValue := .undef
  capture_method : JSValue := .undef
  amount : JSValue := .undef
  currency : JSValue := .undef
  description : JSValue := .undef
  payment_method_options : JSValue := .undef
  receipt_email : JSValue := .undef
deriving DecidableEq

/-- Request body of `POST /capture_payment_intent`. -/
structure CaptureBody where
  payment_intent_id : JSValue := .undef
  amount_to_capture : JSValue := .undef
deriving DecidableEq

/-- Request body of `POST /cancel_payment_intent`. -/
structure CancelBody where
  payment_intent_id : JSValue := .undef
deriving DecidableEq

/-- Request body of `POST /create_setup_intent`. -/
structure SetupIntentBody where
  payment_method_types : JSValue := .undef
  customer : JSValue := .undef
  description : JSValue := .undef
  on_behalf_of : JSValue := .undef
deriving DecidableEq

/-- Request body of `POST /attach_payment_method_to_customer`.  A caller may
also supply a `customer` field; the handler never reads it. -/
structure AttachBody where
  payment_method_id : JSValue := .undef
  customer : JSValue := .undef
deriving DecidableEq

/-- Request body of `POST /update_payment_intent`. -/
structure UpdateBody where
  payment_intent_id : JSValue := .undef
  receipt_email : JSValue := .undef
deriving DecidableEq

/-- Request body of `POST /create_location`. -/
structure CreateLocationBody where
  display_name : JSValue := .undef
  address : JSValue := .undef
deriving DecidableEq

/-- `GET /` (server.js lines 42-44): serves the static landing page, writes
no log line and issues no vendor call. -/
def rootRoute : List Event :=
  [.respond 200 .staticPage]

/-- `GET /test` (server.js lines 47-49).  The parameter is the configured
secret key, which the handler ignores. -/
def testRoute (_key : String) : List Event :=
  [.respond 200 (.dataMsg "hello worlds")]

/-- `POST /register_reader` (server.js lines 52-66). -/
def register_reader (b : RegisterReaderBody) (result : Except String ReaderObj) : List Event :=
  let c : VendorCall := .readersCreate b.registration_code b.label b.loc
  match result with
  | .ok reader =>
      [.call c, .log (logInfo ("Reader registered: " ++ reader.id)),
       .respond 200 (.reader reader)]
  | .error m =>
      [.call c, .log (logInfo ("Error registering reader! " ++ m)),
       .respond 402 (.text ("Error registering reader! " ++ m))]

/-- `POST /connection_token` (server.js lines 68-77).  Note that the success
path writes no log line. -/
def connection_token (result : Except String TokenObj) : List Event :=
  match result with
  | .ok token =>
      [.call .connectionTokensCreate, .respond 200 (.secretOnly token.secret)]
  | .error m =>
      [.call .connectionTokensCreate,
       .log (logInfo ("Error creating ConnectionToken! " ++ m)),
       .respond 402 (.text ("Error creating ConnectionToken! " ++ m))]

/-- The parameters `POST /create_payment_intent` passes to
`stripe.paymentIntents.create` (server.js lines 83-91): `||`-defaulting for
four fields and `payment_method_options`, pass-through for `amount` and
`receipt_email`. -/
def mkPaymentIntentParams (b : PaymentIntentBody) : PaymentIntentCreateParams :=
  { payment_method_types := jsOr b.payment_method_types (.arrV ["card_present"])
    capture_method := jsOr b.capture_method (.strV "manual")
    amount := b.amount
    currency := jsOr b.currency (.strV "gbp")
    description := jsOr b.description (.strV "Example PaymentIntent")
    payment_method_options := jsOr b.payment_method_options (.objV [])
    receipt_email := b.receipt_email }

/-- `POST /create_payment_intent` (server.js lines 79-100). -/
def create_payment_intent (b : PaymentIntentBody) (result : Except String IntentObj) : List Event :=
  let c : VendorCall := .paymentIntentsCreate (mkPaymentIntentParams b)
  match result with
  | .ok pi =>
      [.call c, .log (logInfo ("PaymentIntent created: " ++ pi.id)),
       .respond 200 (.intentSecret pi.id pi.client_secret)]
  | .error m =>
      [.call c, .log (logInfo ("Error creating PaymentIntent! " ++ m)),
       .respond 402 (.text ("Error creating PaymentIntent! " ++ m))]

/-- `POST /capture_payment_intent` (server.js lines 102-116).  The success
log line interpolates the request's `payment_intent_id`, not the vendor
object's id. -/
def capture_payment_intent (b : CaptureBody) (result : Except String IntentObj) : List Event :=
  let c : VendorCall := .paymentIntentsCapture b.payment_intent_id b.amount_to_capture
  match result with
  | .ok pi =>
      [.call c, .log (logInfo ("PaymentIntent captured: " ++ b.payment_intent_id.toStr)),
       .respond 200 (.intentSecret pi.id pi.client_secret)]
  | .error m =>
      [.call c, .log (logInfo ("Error capturing PaymentIntent! " ++ m)),
       .respond 402 (.text ("Error capturing PaymentIntent! " ++ m))]

/-- `POST /cancel_payment_intent` (server.js lines 118-130). -/
def cancel_payment_intent (b : CancelBody) (result : Except String IntentObj) : List Event :=
  let c : VendorCall := .paymentIntentsCancel b.payment_intent_id
  match result with
  | .ok pi =>
      [.call c, .log (logInfo ("PaymentIntent canceled: " ++ b.payment_intent_id.toStr)),
       .respond 200 (.intentSecret pi.id pi.client_secret)]
  | .error m =>
      [.call c, .log (logInfo ("Error canceling PaymentIntent! " ++ m)),
       .respond 402 (.text ("Error canceling PaymentIntent! " ++ m))]

/-- `POST /create_setup_intent` (server.js lines 132-151). -/
def create_setup_intent (b : SetupIntentBody) (result : Except String IntentObj) : List Event :=
  let c : VendorCall := .setupIntentsCreate (jsOr b.payment_method_types (.arrV ["card_present"]))
    b.customer b.description b.on_behalf_of
  match result with
  | .ok si =>
      [.call c, .log (logInfo ("SetupIntent created: " ++ si.id)),
       .respond 200 (.intentSecret si.id si.client_secret)]
  | .error m =>
      [.call c, .log (logInfo ("Error creating SetupIntent! " ++ m)),
       .respond 402 (.text ("Error creating SetupIntent! " ++ m))]

/-- The fixed sentinel email of the example customer (server.js line 154). -/
def exampleEmail : String :=
  "example@test.com"

/-- `lookupOrCreateExampleCustomer` (server.js lines 153-157): list customers
with the sentinel email (limit 1); if the returned `data` array is non-empty
take its head, otherwise create a customer with that email.  Returns the
vendor calls issued (in order) and the outcome. -/
def lookupOrCreateExampleCustomer (listRes : Except String (List CustomerObj))
    (createRes : Except String CustomerObj) : List Event × Except String CustomerObj :=
  match listRes with
  | .error m => ([.call (.customersList exampleEmail 1)], .error m)
  | .ok [] =>
      match createRes with
      | .ok c => ([.call (.customersList exampleEmail 1),
                   .call (.customersCreate exampleEmail)], .ok c)
      | .error m => ([.call (.customersList exampleEmail 1),
                      .call (.customersCreate exampleEmail)], .error m)
  | .ok (c :: _) => ([.call (.customersList exampleEmail 1)], .ok c)

/-- `POST /attach_payment_method_to_customer` (server.js lines 159-171).
`attachRes` is the vendor's answer to `stripe.paymentMethods.attach` as a
function of the customer id the handler passes to it. -/
def attach_payment_method_to_customer (b : AttachBody)
    (listRes : Except String (List CustomerObj)) (createRes : Except String CustomerObj)
    (attachRes : String → Except String PaymentMethodObj) : List Event :=
  let lookup := lookupOrCreateExampleCustomer listRes createRes
  match lookup.2 with
  | .error m =>
      lookup.1 ++ [.log (logInfo ("Error attaching PaymentMethod! " ++ m)),
        .respond 402 (.text ("Error attaching PaymentMethod! " ++ m))]
  | .ok cust =>
      match attachRes cust.id with
      | .ok pm =>
          lookup.1 ++ [.call (.paymentMethodsAttach b.payment_method_id cust.id ["customer"]),
            .log (logInfo ("Attached PaymentMethod to Customer: " ++ cust.id)),
            .respond 200 (.paymentMethod pm)]
      | .error m =>
          lookup.1 ++ [.call (.paymentMethodsAttach b.payment_method_id cust.id ["customer"]),
            .log (logInfo ("Error attaching PaymentMethod! " ++ m)),
            .respond 402 (.text ("Error attaching PaymentMethod! " ++ m))]

/-- `POST /update_payment_intent` (server.js lines 173-189): JavaScript
truthiness guard `if (!payment_intent_id)` yields 400 without any vendor
call; otherwise the update call is issued with the body's `receipt_email`. -/
def update_payment_intent (b : UpdateBody) (result : Except String IntentObj) : List Event :=
  if b.payment_intent_id.truthy then
    let c : VendorCall := .paymentIntentsUpdate b.payment_intent_id b.receipt_email
    match result with
    | .ok pi =>
        [.call c, .log (logInfo ("Updated PaymentIntent " ++ b.payment_intent_id.toStr)),
         .respond 200 (.intentSecret pi.id pi.client_secret)]
    | .error m =>
        [.call c, .log (logInfo ("Error updating PaymentIntent! " ++ m)),
         .respond 402 (.text ("Error updating PaymentIntent! " ++ m))]
  else
    [.log (logInfo "\x27payment_intent_id\x27 is required"),
     .respond 400 (.text "\x27payment_intent_id\x27 is required")]

/-- `GET /list_locations` (server.js lines 191-201). -/
def list_locations (result : Except String (List LocationObj)) : List Event :=
  match result with
  | .ok ls =>
      [.call (.terminalLocationsList 100),
       .log (logInfo (toString ls.length ++ " Locations fetched")),
       .respond 200 (.locations ls)]
  | .error m =>
      [.call (.terminalLocationsList 100),
       .log (logInfo ("Error fetching Locations! " ++ m)),
       .respond 402 (.text ("Error fetching Locations! " ++ m))]

/-- `POST /create_location` (server.js lines 203-216). -/
def create_location (b : CreateLocationBody) (result : Except String LocationObj) : List Event :=
  let c : VendorCall := .terminalLocationsCreate b.display_name b.address
  match result with
  | .ok l =>
      [.call c, .log (logInfo ("Location created: " ++ l.id)),
       .respond 200 (.location l)]
  | .error m =>
      [.call c, .log (logInfo ("Error creating Location! " ++ m)),
       .respond 402 (.text ("Error creating Location! " ++ m))]

/-- The vendor calls a trace issues, in order. -/
def callsOf : List Event → List VendorCall
  | [] => []
  | .call c :: rest => c :: callsOf rest
  | .log _ :: rest => callsOf rest
  | .respond _ _ :: rest => callsOf rest

/-- The log lines a trace writes, in order. -/
def logsOf : List Event → List String
  | [] => []
  | .log s :: rest => s :: logsOf rest
  | .call _ :: rest => logsOf rest
  | .respond _ _ :: rest => logsOf rest

/-- The first HTTP response in a trace, as status and body. -/
def responseOf : List Event → Option (Nat × RespBody)
  | [] => none
  | .respond st b :: _ => some (st, b)
  | .call _ :: rest => responseOf rest
  | .log _ :: rest => responseOf rest

/-- Whether a trace contains an HTTP response. -/
def containsRespond (tr : List Event) : Bool :=
  tr.any fun e =>
    match e with
    | .respond _ _ => true
    | _ => false

/-- Whether some log line is written strictly before the first HTTP response
of the trace (and a response exists). -/
def logBeforeRespond : List Event → Bool
  | [] => false
  | .log _ :: rest => containsRespond rest
  | .call _ :: rest => logBeforeRespond rest
  | .respond _ _ :: _ => false

/-- `m` occurs verbatim as a substring of `s`. -/
def strContains (m s : String) : Prop :=
  ∃ a b, s = a ++ m ++ b

/-- The trace responds HTTP 402 with a plain-text body containing the vendor
error message `m` verbatim. -/
def respondsWithVendorError (tr : List Event) (m : String) : Prop :=
  ∃ s, responseOf tr = some (402, .text s) ∧ strContains m s

/-- A string trivially contains any of its suffixes appended after a prefix. -/
theorem strContains_of_append (p m : String) : strContains m (p ++ m) :=
  ⟨p, "", by rw [String.append_empty]⟩

/-- Claim C1: for every route handler, whenever the single vendor call it
issues fails with message `m`, the handler responds HTTP 402 with a
plain-text body of the form `Error <doing X>! <m>`, so the vendor error
message occurs verbatim as a substring of the response body.  For the
attach handler every one of its vendor calls (customer list, customer
create, payment-method attach) is covered. -/
theorem vendor_failure_yields_402_with_message :
    (∀ b m, respondsWithVendorError (register_reader b (.error m)) m) ∧
    (∀ m, respondsWithVendorError (connection_token (.error m)) m) ∧
    (∀ b m, respondsWithVendorError (create_payment_intent b (.error m)) m) ∧
    (∀ b m, respondsWithVendorError (capture_payment_intent b (.error m)) m) ∧
    (∀ b m, respondsWithVendorError (cancel_payment_intent b (.error m)) m) ∧
    (∀ b m, respondsWithVendorError (create_setup_intent b (.error m)) m) ∧
    (∀ b m cr ar,
      respondsWithVendorError (attach_payment_method_to_customer b (.error m) cr ar) m) ∧
    (∀ b m ar,
      respondsWithVendorError (attach_payment_method_to_customer b (.ok []) (.error m) ar) m) ∧
    (∀ b c rest cr ar m, ar c.id = .error m →
      respondsWithVendorError (attach_payment_method_to_customer b (.ok (c :: rest)) cr ar) m) ∧
    (∀ b m, b.payment_intent_id.truthy = true →
      respondsWithVendorError (update_payment_intent b (.error m)) m) ∧
    (∀ m, respondsWithVendorError (list_locations (.error m)) m) ∧
    (∀ b m, respondsWithVendorError (create_location b (.error m)) m) := by
  refine ⟨?_, ?_, ?_, ?_, ?_, ?_, ?_, ?_, ?_, ?_, ?_, ?_⟩
  · exact fun b m => ⟨_, rfl, strContains_of_append _ m⟩
  · exact fun m => ⟨_, rfl, strContains_of_append _ m⟩
  · exact fun b m => ⟨_, rfl, strContains_of_append _ m⟩
  · exact fun b m => ⟨_, rfl, strContains_of_append _ m⟩
  · exact fun b m => ⟨_, rfl, strContains_of_append _ m⟩
  · exact fun b m => ⟨_, rfl, strContains_of_append _ m⟩
  · exact fun b m cr ar => ⟨_, rfl, strContains_of_append _ m⟩
  · exact fun b m ar => ⟨_, rfl, strContains_of_append _ m⟩
  · intro b c rest cr ar m h
    refine ⟨"Error attaching PaymentMethod! " ++ m, ?_, strContains_of_append _ m⟩
    simp only [attach_payment_method_to_customer, lookupOrCreateExampleCustomer, h]
    rfl
  · intro b m h
    refine ⟨"Error updating PaymentIntent! " ++ m, ?_, strContains_of_append _ m⟩
    simp only [update_payment_intent, h, if_true]
    rfl
  · exact fun m => ⟨_, rfl, strContains_of_append _ m⟩
  · exact fun b m => ⟨_, rfl, strContains_of_append _ m⟩

/-- Closed witness for C1: the update handler, given a truthy payment-intent
id and a vendor failure with message `boom`, responds 402 with the message
embedded. -/
theorem vendor_failure_yields_402_with_message_witness :
    respondsWithVendorError
      (update_payment_intent { payment_intent_id := .strV "pi_1" } (.error "boom")) "boom" :=
  vendor_failure_yields_402_with_message.2.2.2.2.2.2.2.2.2.1
    { payment_intent_id := .strV "pi_1" } "boom" (by decide)

/-- Counterexample for C2: in the body `\x7bamount: 1000, currency: ""\x7d`
the caller supplies `currency`, yet the vendor call is issued with the
default `"gbp"` rather than the supplied value, because the JavaScript `||`
defaulting replaces every falsy supplied value. -/
theorem create_payment_intent_falsy_currency_counterexample :
    (mkPaymentIntentParams { amount := .numV 1000, currency := .strV "" }).currency
        = .strV "gbp" ∧
    (JSValue.strV "gbp" ≠ JSValue.strV "") ∧
    callsOf (create_payment_intent { amount := .numV 1000, currency := .strV "" }
        (.ok { id := "pi_1", client_secret := "cs_1" })) =
      [.paymentIntentsCreate
        { payment_method_types := .arrV ["card_present"], capture_method := .strV "manual",
          amount := .numV 1000, currency := .strV "gbp",
          description := .strV "Example PaymentIntent",
          payment_method_options := .objV [], receipt_email := .undef }] := by
  refine ⟨rfl, by decide, rfl⟩

/-- Claim C2 (amended): with body `\x7bamount: 1000\x7d` the vendor call
carries the defaults `payment_method_types = ["card_present"]`,
`capture_method = "manual"`, `currency = "gbp"` and the placeholder
description; the handler always issues exactly the call built by
`mkPaymentIntentParams`; and every one of those fields that the caller
supplies with a truthy value is passed through instead of the default (a
supplied falsy value, such as the empty string, falls back to the
default). -/
theorem create_payment_intent_defaults_and_truthy_passthrough :
    (∀ r, callsOf (create_payment_intent { amount := .numV 1000 } r) =
      [.paymentIntentsCreate
        { payment_method_types := .arrV ["card_present"], capture_method := .strV "manual",
          amount := .numV 1000, currency := .strV "gbp",
          description := .strV "Example PaymentIntent",
          payment_method_options := .objV [], receipt_email := .undef }]) ∧
    (∀ b r, callsOf (create_payment_intent b r) =
      [.paymentIntentsCreate (mkPaymentIntentParams b)]) ∧
    (∀ b : PaymentIntentBody,
      (b.payment_method_types.truthy = true →
        (mkPaymentIntentParams b).payment_method_types = b.payment_method_types) ∧
      (b.capture_method.truthy = true →
        (mkPaymentIntentParams b).capture_method = b.capture_method) ∧
      (b.currency.truthy = true → (mkPaymentIntentParams b).currency = b.currency) ∧
      (b.description.truthy = true → (mkPaymentIntentParams b).description = b.description) ∧
      (mkPaymentIntentParams b).amount = b.amount ∧
      (mkPaymentIntentParams b).receipt_email = b.receipt_email) := by
  refine ⟨fun r => by cases r <;> rfl, fun b r => by cases r <;> rfl, fun b => ?_⟩
  refine ⟨fun h => ?_, fun h => ?_, fun h => ?_, fun h => ?_, rfl, rfl⟩ <;>
    simp [mkPaymentIntentParams, jsOr, h]

/-- Closed witness for C2 (amended): a body supplying truthy values for all
four defaulted fields has them passed through unchanged. -/
theorem create_payment_intent_defaults_and_truthy_passthrough_witness :
    (mkPaymentIntentParams
        { payment_method_types := .arrV ["card"], capture_method := .strV "automatic",
          currency := .strV "usd",
          description := .strV "my intent" }).payment_method_types = .arrV ["card"] ∧
    (mkPaymentIntentParams
        { capture_method := .strV "automatic" }).capture_method = .strV "automatic" ∧
    (mkPaymentIntentParams { currency := .strV "usd" }).currency = .strV "usd" ∧
    (mkPaymentIntentParams
        { description := .strV "my intent" }).description = .strV "my intent" :=
  ⟨(create_payment_intent_defaults_and_truthy_passthrough.2.2
      { payment_method_types := .arrV ["card"], capture_method := .strV "automatic",
        currency := .strV "usd", description := .strV "my intent" }).1 (by decide),
   (create_payment_intent_defaults_and_truthy_passthrough.2.2
      { capture_method := .strV "automatic" }).2.1 (by decide),
   (create_payment_intent_defaults_and_truthy_passthrough.2.2
      { currency := .strV "usd" }).2.2.1 (by decide),
   (create_payment_intent_defaults_and_truthy_passthrough.2.2
      { description := .strV "my intent" }).2.2.2.1 (by decide)⟩

/-- Counterexample for C3: the body with `payment_intent_id` supplied as the
empty string does supply the field, yet the handler issues no vendor call
and responds 400, contradicting the claim that every body supplying
`payment_intent_id` leads to the vendor update call. -/
theorem update_payment_intent_empty_id_counterexample :
    callsOf (update_payment_intent { payment_intent_id := .strV "" }
        (.ok { id := "pi_1", client_secret := "cs_1" })) = [] ∧
    responseOf (update_payment_intent { payment_intent_id := .strV "" }
        (.ok { id := "pi_1", client_secret := "cs_1" })) =
      some (400, .text "\x27payment_intent_id\x27 is required") := by
  refine ⟨rfl, rfl⟩

/-- Claim C3 (amended): if the request body has no `payment_intent_id` (or,
more generally, a falsy one), the handler responds HTTP 400 with a
plain-text message and issues no vendor call; and for every body supplying
a truthy `payment_intent_id`, the vendor update call is issued with the
body's `receipt_email`. -/
theorem update_payment_intent_precondition :
    (∀ re r, callsOf (update_payment_intent { payment_intent_id := .undef, receipt_email := re } r)
        = [] ∧
      responseOf (update_payment_intent { payment_intent_id := .undef, receipt_email := re } r)
        = some (400, .text "\x27payment_intent_id\x27 is required")) ∧
    (∀ (b : UpdateBody) r, b.payment_intent_id.truthy = true →
      callsOf (update_payment_intent b r) =
        [.paymentIntentsUpdate b.payment_intent_id b.receipt_email]) := by
  constructor
  · exact fun re r => ⟨rfl, rfl⟩
  · intro b r h
    cases r <;> simp [update_payment_intent, h, callsOf]

/-- Closed witness for C3 (amended): a truthy id leads to exactly the vendor
update call with the supplied receipt email. -/
theorem update_payment_intent_precondition_witness :
    callsOf (update_payment_intent
        { payment_intent_id := .strV "pi_7", receipt_email := .strV "a@b.c" }
        (.ok { id := "pi_7", client_secret := "cs_7" })) =
      [.paymentIntentsUpdate (.strV "pi_7") (.strV "a@b.c")] :=
  update_payment_intent_precondition.2
    { payment_intent_id := .strV "pi_7", receipt_email := .strV "a@b.c" }
    (.ok { id := "pi_7", client_secret := "cs_7" }) (by decide)

/-- Claim C10: a `payment_intent_id` that is falsy — absent, `null`, the
empty string, `0` or `false` — always yields HTTP 400 with no vendor call;
in particular a present-but-falsy value such as `""` behaves exactly like an
absent one. -/
theorem update_payment_intent_falsy_id_like_absent :
    ∀ (b : UpdateBody) (r : Except String IntentObj), b.payment_intent_id.truthy = false →
      callsOf (update_payment_intent b r) = [] ∧
      responseOf (update_payment_intent b r) =
        some (400, .text "\x27payment_intent_id\x27 is required") := by
  intro b r h
  simp [update_payment_intent, h, callsOf, responseOf]

/-- Closed witness for C10: the present-but-empty id `""` gets the same
400-without-vendor-call treatment as an absent one. -/
theorem update_payment_intent_falsy_id_like_absent_witness :
    callsOf (update_payment_intent { payment_intent_id := .strV "" } (.error "never")) = [] ∧
    responseOf (update_payment_intent { payment_intent_id := .strV "" } (.error "never")) =
      some (400, .text "\x27payment_intent_id\x27 is required") :=
  update_payment_intent_falsy_id_like_absent
    { payment_intent_id := .strV "" } (.error "never") (by decide)

/-- Claim C4: the attach handler's vendor-call sequence is fully
characterised: it always starts with a customer search for the fixed
sentinel email with limit 1; a customer is created (with that email only)
exactly when the search succeeds with an empty result; and whenever an
attach call is issued it comes strictly after the lookup-or-create calls,
attaches the caller-supplied `payment_method_id` to the customer id
obtained from the lookup-or-create (never to the caller's `customer`
field, over which the statement quantifies), and expands `customer` on the
result. -/
theorem attach_payment_method_sentinel_customer_order :
    ∀ (b : AttachBody) (lr : Except String (List CustomerObj))
      (cr : Except String CustomerObj) (ar : String → Except String PaymentMethodObj),
      callsOf (attach_payment_method_to_customer b lr cr ar) =
        match lr with
        | .error _ => [.customersList exampleEmail 1]
        | .ok (c :: _) =>
            [.customersList exampleEmail 1,
             .paymentMethodsAttach b.payment_method_id c.id ["customer"]]
        | .ok [] =>
            match cr with
            | .error _ => [.customersList exampleEmail 1, .customersCreate exampleEmail]
            | .ok c =>
                [.customersList exampleEmail 1, .customersCreate exampleEmail,
                 .paymentMethodsAttach b.payment_method_id c.id ["customer"]] := by
  intro b lr cr ar
  rcases lr with m | ls
  · rfl
  · rcases ls with _ | ⟨c, rest⟩
    · rcases cr with m | c
      · rfl
      · rcases h : ar c.id with m | pm <;>
          simp [attach_payment_method_to_customer, lookupOrCreateExampleCustomer, h, callsOf]
    · rcases h : ar c.id with m | pm <;>
        simp [attach_payment_method_to_customer, lookupOrCreateExampleCustomer, h, callsOf]

/-- Claim C5: `validateApiKey` returns an error message (a non-`none`
result) on the empty key, on any `pk_`-prefixed key and on any
`sk_live`-prefixed key, and accepts (returns `none` for) every other key. -/
theorem validateApiKey_spec :
    (validateApiKey "").isSome = true ∧
    (∀ k, jsStartsWith k "pk_" = true → (validateApiKey k).isSome = true) ∧
    (∀ k, jsStartsWith k "sk_live" = true → (validateApiKey k).isSome = true) ∧
    (∀ k, k ≠ "" → jsStartsWith k "pk_" = false → jsStartsWith k "sk_live" = false →
      validateApiKey k = none) := by
  refine ⟨rfl, ?_, ?_, ?_⟩
  · intro k h
    by_cases hk : k = "" <;> simp [validateApiKey, hk, h]
  · intro k h
    by_cases hk : k = "" <;> by_cases hp : jsStartsWith k "pk_" <;>
      simp [validateApiKey, hk, hp, h]
  · intro k h1 h2 h3
    simp [validateApiKey, h1, h2, h3]

/-- Closed witness for C5: a publishable key, a live-mode key and an
ordinary test key evaluated concretely. -/
theorem validateApiKey_spec_witness :
    (validateApiKey "pk_test_123").isSome = true ∧
    (validateApiKey "sk_live_123").isSome = true ∧
    validateApiKey "sk_test_123" = none :=
  ⟨validateApiKey_spec.2.1 "pk_test_123" (by decide),
   validateApiKey_spec.2.2.1 "sk_live_123" (by decide),
   validateApiKey_spec.2.2.2 "sk_test_123" (by decide) (by decide) (by decide)⟩

/-- Counterexample for C6: the connection-token handler's successful outcome
writes no log line at all — in particular none before the 200 response — so
not every successful outcome is logged before the response is sent. -/
theorem connection_token_success_no_log_counterexample :
    logsOf (connection_token (.ok { secret := "cts_1" })) = [] ∧
    logBeforeRespond (connection_token (.ok { secret := "cts_1" })) = false ∧
    responseOf (connection_token (.ok { secret := "cts_1" })) =
      some (200, .secretOnly "cts_1") := by
  refine ⟨rfl, rfl, rfl⟩

/-- Claim C6 (amended): every failed outcome of every handler writes a log
line before the HTTP response, and so does every successful outcome, except
for the connection-token success path, `GET /test` and `GET /`, which write
no log at all. -/
theorem log_before_response_amended :
    (∀ b r, logBeforeRespond (register_reader b r) = true) ∧
    (∀ m, logBeforeRespond (connection_token (.error m)) = true) ∧
    (∀ t, logsOf (connection_token (.ok t)) = []) ∧
    (∀ b r, logBeforeRespond (create_payment_intent b r) = true) ∧
    (∀ b r, logBeforeRespond (capture_payment_intent b r) = true) ∧
    (∀ b r, logBeforeRespond (cancel_payment_intent b r) = true) ∧
    (∀ b r, logBeforeRespond (create_setup_intent b r) = true) ∧
    (∀ b lr cr ar, logBeforeRespond (attach_payment_method_to_customer b lr cr ar) = true) ∧
    (∀ b r, logBeforeRespond (update_payment_intent b r) = true) ∧
    (∀ r, logBeforeRespond (list_locations r) = true) ∧
    (∀ b r, logBeforeRespond (create_location b r) = true) ∧
    (∀ k, logsOf (testRoute k) = []) ∧
    logsOf rootRoute = [] := by
  refine ⟨?_, ?_, ?_, ?_, ?_, ?_, ?_, ?_, ?_, ?_, ?_, ?_, rfl⟩
  · exact fun b r => by cases r <;> rfl
  · exact fun m => rfl
  · exact fun t => rfl
  · exact fun b r => by cases r <;> rfl
  · exact fun b r => by cases r <;> rfl
  · exact fun b r => by cases r <;> rfl
  · exact fun b r => by cases r <;> rfl
  · intro b lr cr ar
    rcases lr with m | ls
    · rfl
    · rcases ls with _ | ⟨c, rest⟩
      · rcases cr with m | c
        · rfl
        · rcases h : ar c.id with m | pm <;>
            simp [attach_payment_method_to_customer, lookupOrCreateExampleCustomer, h,
              logBeforeRespond, containsRespond]
      · rcases h : ar c.id with m | pm <;>
          simp [attach_payment_method_to_customer, lookupOrCreateExampleCustomer, h,
            logBeforeRespond, containsRespond]
  · intro b r
    by_cases h : b.payment_intent_id.truthy <;> cases r <;>
      simp [update_payment_intent, h, logBeforeRespond, containsRespond]
  · exact fun r => by cases r <;> rfl
  · exact fun b r => by cases r <;> rfl
  · exact fun k => rfl

/-- Claim C7: the list-locations handler always issues the vendor list call
with limit 100, and on success responds 200 with exactly the vendor's
`data` array, in the same order. -/
theorem list_locations_limit_and_passthrough :
    (∀ r, callsOf (list_locations r) = [.terminalLocationsList 100]) ∧
    (∀ ls, responseOf (list_locations (.ok ls)) = some (200, .locations ls)) :=
  ⟨fun r => by cases r <;> rfl, fun ls => rfl⟩

/-- Claim C8: no client secret flows into any log line, formalised as
noninterference: for every handler that receives a payment-intent,
setup-intent or connection-token client secret from the vendor, the log
lines written are identical for any two vendor results that differ only in
the client secret. -/
theorem client_secret_not_logged :
    (∀ b id s t, logsOf (create_payment_intent b (.ok { id := id, client_secret := s })) =
      logsOf (create_payment_intent b (.ok { id := id, client_secret := t }))) ∧
    (∀ b id s t, logsOf (capture_payment_intent b (.ok { id := id, client_secret := s })) =
      logsOf (capture_payment_intent b (.ok { id := id, client_secret := t }))) ∧
    (∀ b id s t, logsOf (cancel_payment_intent b (.ok { id := id, client_secret := s })) =
      logsOf (cancel_payment_intent b (.ok { id := id, client_secret := t }))) ∧
    (∀ b id s t, logsOf (create_setup_intent b (.ok { id := id, client_secret := s })) =
      logsOf (create_setup_intent b (.ok { id := id, client_secret := t }))) ∧
    (∀ b id s t, logsOf (update_payment_intent b (.ok { id := id, client_secret := s })) =
      logsOf (update_payment_intent b (.ok { id := id, client_secret := t }))) ∧
    (∀ s t, logsOf (connection_token (.ok { secret := s })) =
      logsOf (connection_token (.ok { secret := t }))) := by
  refine ⟨fun b id s t => rfl, fun b id s t => rfl, fun b id s t => rfl,
    fun b id s t => rfl, fun b id s t => ?_, fun s t => rfl⟩
  by_cases h : b.payment_intent_id.truthy <;> simp [update_payment_intent, h, logsOf]

/-- Claim C9: `GET /test` responds 200 with `\x7bdata: "hello worlds"\x7d`
for every configured credential, and issues no vendor call. -/
theorem test_route_constant :
    ∀ k, responseOf (testRoute k) = some (200, .dataMsg "hello worlds") ∧
      callsOf (testRoute k) = [] :=
  fun _ => ⟨rfl, rfl⟩
